import Mathlib

/-!
Verification development for the TradeLensAI investment-report tool
(`secrep.py`).  The program fetches insider trades, stock data, news and
fundamentals for a ticker, formats them, feeds the news into a GPT
sentiment prompt, and on demand writes a flat text report.  Below is a
shallow embedding of its pure logic: the number formatter
`format_large_num`, the HTML-extraction logic of `fetch_insider_trades`
and `fetch_latest_news`, the fundamentals mapping of `fetch_fundamentals`,
the error collapse of `generate_analysis_via_gpt`, the sentiment gate
`if news and "Error" not in news`, the HTTP request configuration, the
TTL-cache contract of the `st.cache_data(ttl=3600)` decorators, and the
TXT-report assembly.
-/

namespace TradeLens

/-- An executable rational `num / den`; every value the embedding builds
has `0 < den`.  Used instead of `ℚ` so that the kernel can evaluate the
formatter on concrete inputs (`ℚ`'s normalising arithmetic does not
kernel-reduce); `Frac.toRat` relates it to `ℚ` in the statements. -/
structure Frac where
  num : ℤ
  den : ℤ
deriving DecidableEq

/-- The rational value of a `Frac`. -/
def Frac.toRat (f : Frac) : ℚ := (f.num : ℚ) / (f.den : ℚ)

/-- Python `abs` on a fraction (denominators are positive). -/
def Frac.fabs (f : Frac) : Frac := ⟨(f.num.natAbs : ℤ), f.den⟩

/-- Whether the integer `b` is at most the fraction `f` (for `0 < f.den`):
the comparison `b <= f` done by cross-multiplication. -/
def Frac.intLe (b : ℤ) (f : Frac) : Bool := b * f.den ≤ f.num

/-- Division of a fraction by a positive integer. -/
def Frac.divInt (f : Frac) (d : ℤ) : Frac := ⟨f.num, f.den * d⟩

/-- Python numeric values reaching `format_large_num`: the yfinance `info`
fields are ints (e.g. `marketCap`) or floats (ratios).  Floats are
modelled as exact fractions with positive denominator. -/
inductive PyNum where
  | pint (z : ℤ)
  | pfloat (f : Frac)
deriving DecidableEq

/-- The fraction underlying a `PyNum`. -/
def PyNum.frac : PyNum → Frac
  | .pint z => ⟨z, 1⟩
  | .pfloat f => f

/-- The rational value of a `PyNum`. -/
def PyNum.toRat (n : PyNum) : ℚ := n.frac.toRat

/-- Positivity of the (modelled) denominator. -/
def PyNum.wf (n : PyNum) : Prop := 0 < n.frac.den

/-- Round the value of a fraction (with positive denominator) to the
nearest integer, ties to even: the rounding used by Python's `round` and
by formatting with the `.2f` spec. -/
def roundHalfEven (f : Frac) : ℤ :=
  let fl := f.num.fdiv f.den
  let r2 := 2 * (f.num - fl * f.den)
  if r2 < f.den then fl
  else if f.den < r2 then fl + 1
  else if fl % 2 = 0 then fl else fl + 1

/-- Two-digit zero-padded rendering of a fraction part below 100. -/
def twoDigitStr (n : ℕ) : String :=
  (if n < 10 then "0" else "") ++ toString n

/-- Rendering of `f"{q:.2f}"`: exactly two digits after the point,
rounding ties to even. -/
def fmt2 (f : Frac) : String :=
  let c := roundHalfEven ⟨f.num * 100, f.den⟩
  let m := c.natAbs
  (if c < 0 then "-" else "") ++ toString (m / 100) ++ "." ++ twoDigitStr (m % 100)

/-- Shortest rendering of the float `c / 100` (Python `str` on a float
rounded to two decimals): a trailing zero of the fraction part is
dropped, but at least one fractional digit is kept. -/
def floatRepr2 (c : ℤ) : String :=
  let m := c.natAbs
  (if c < 0 then "-" else "") ++ toString (m / 100) ++ "." ++
    (if m % 100 % 10 = 0 then toString (m % 100 / 10) else twoDigitStr (m % 100))

/-- Python `str(round(num, 2))`: `round` keeps ints unchanged (rendered
with no decimal point) and rounds floats to two decimals (rendered with
at least one fractional digit). -/
def pyStrRound2 : PyNum → String
  | .pint z => toString z
  | .pfloat f => floatRepr2 (roundHalfEven ⟨f.num * 100, f.den⟩)

/-- Embedding of `format_large_num` (secrep.py lines 184-194): `None`
maps to `"N/A"`; magnitudes of at least `1e9`/`1e6`/`1e3` are divided
down and rendered via `f"...:.2f"` with suffix `B`/`M`/`K`; smaller
values are rendered as `str(round(num, 2))`. -/
def format_large_num : Option PyNum → String
  | none => "N/A"
  | some n =>
    if Frac.intLe 1000000000 n.frac.fabs then fmt2 (n.frac.divInt 1000000000) ++ "B"
    else if Frac.intLe 1000000 n.frac.fabs then fmt2 (n.frac.divInt 1000000) ++ "M"
    else if Frac.intLe 1000 n.frac.fabs then fmt2 (n.frac.divInt 1000) ++ "K"
    else pyStrRound2 n

/-! ### Substring containment (Python's `in` on strings) -/

/-- Whether the character list `s` starts with `pat`. -/
def startsWithL : List Char → List Char → Bool
  | [], _ => true
  | _ :: _, [] => false
  | a :: pa, b :: pb => (a == b) && startsWithL pa pb

/-- Whether `pat` occurs contiguously in `s`: Python's `pat in s`. -/
def hasSubstr (pat : List Char) : List Char → Bool
  | [] => pat.isEmpty
  | c :: rest => startsWithL pat (c :: rest) || hasSubstr pat rest

/-- Python `str.strip()`: drop leading and trailing whitespace. -/
def pyStrip (s : String) : String :=
  ⟨((s.data.dropWhile Char.isWhitespace).reverse.dropWhile Char.isWhitespace).reverse⟩

/-! ### News fetching and the sentiment gate -/

/-- Outcomes of the Finviz page fetch and parse in `fetch_latest_news`
(secrep.py lines 82-99): a raised exception with message `msg`; a page
with no `table.fullview-news-outer`; or the matched table's `tr`
elements, each a list of its text fragments. -/
inductive NewsFetch where
  | fail (msg : String)
  | noTable
  | table (rows : List (List String))
deriving DecidableEq

/-- Embedding of `fetch_latest_news`: an exception is caught and turned
into `"Error fetching news: <msg>"`; a missing table yields
`"No recent news found."`; otherwise the first `maxNews` rows are
rendered with `get_text(" | ").strip()` and joined by newlines. -/
def fetch_latest_news (r : NewsFetch) (maxNews : ℕ) : String :=
  match r with
  | .fail msg => "Error fetching news: " ++ msg
  | .noTable => "No recent news found."
  | .table rows =>
    String.intercalate "\n"
      ((rows.take maxNews).map fun cells => pyStrip (String.intercalate " | " cells))

/-- Embedding of the gate `if news and "Error" not in news:` (secrep.py
lines 210 and 284): the sentiment prompt is built and
`generate_analysis_via_gpt` is called exactly when the news digest is a
non-empty string not containing the substring `"Error"`. -/
def sentimentGate (news : String) : Bool :=
  (!news.isEmpty) && (!hasSubstr "Error".data news.data)

/-- The sentiment prompt built from the news digest (secrep.py lines
211-216). -/
def prompt_sentiment (ticker news : String) : String :=
  "Analyze the following news articles about " ++ ticker ++
  " and provide a sentiment analysis (bullish, bearish, or neutral) with reasons:\n\n" ++
  news ++ "\n\nPlease summarize how this might affect investor perception."

/-! ### Insider-trade extraction -/

/-- One row of the insider-trades result (secrep.py lines 54-62), all
fields display strings. -/
structure InsiderRecord where
  filingDate : String
  tradeDate : String
  insiderName : String
  tradeType : String
  sharesTraded : String
  price : String
  value : String
deriving DecidableEq

/-- Outcomes of the OpenInsider fetch in `fetch_insider_trades`
(secrep.py lines 33-66): a raised exception (network error, non-2xx
status, or a table without `tbody`, all caught by the blanket
`except`); a page whose `table.tinytable` is absent; or the table's
rows, each the list of its `td` cell texts. -/
inductive InsiderFetch where
  | fail
  | page (tinytable : Option (List (List String)))
deriving DecidableEq

/-- Projection of one `tr`'s cells into a record (secrep.py lines 50-63):
rows with fewer than 13 cells are skipped. -/
def parseInsiderRow (cols : List String) : Option InsiderRecord :=
  if cols.length < 13 then none
  else some
    { filingDate := cols.getD 1 ""
      tradeDate := cols.getD 2 ""
      insiderName := cols.getD 5 ""
      tradeType := cols.getD 7 ""
      sharesTraded := cols.getD 9 ""
      price := cols.getD 8 ""
      value := cols.getD 12 "" }

/-- Embedding of `fetch_insider_trades`: any exception and a missing
`tinytable` both collapse to an empty result; otherwise each
sufficiently long row contributes one record. -/
def fetch_insider_trades : InsiderFetch → List InsiderRecord
  | .fail => []
  | .page none => []
  | .page (some rows) => rows.filterMap parseInsiderRow

/-! ### GPT wrapper -/

/-- Embedding of `generate_analysis_via_gpt` (secrep.py lines 102-117):
the argument models the outcome of the `openai.ChatCompletion.create`
round trip — `ok content` is the first choice's message content,
`error e` a raised exception with message `e`.  Success is stripped;
any exception is caught and collapsed to an inline error string. -/
def generate_analysis_via_gpt (api : Except String String) : String :=
  match api with
  | .ok content => pyStrip content
  | .error e => "Error generating GPT analysis: " ++ e

/-! ### Fundamentals -/

/-- Embedding of `fetch_fundamentals` (secrep.py lines 120-141) on the
non-raising path: `info` models `stock.info.get`, returning `none` for a
missing field; the result is the fixed 8-entry mapping in insertion
order. -/
def fetch_fundamentals (info : String → Option PyNum) : List (String × Option PyNum) :=
  [ ("Market Cap", info "marketCap")
  , ("PE Ratio (TTM)", info "trailingPE")
  , ("Forward PE", info "forwardPE")
  , ("EPS (TTM)", info "trailingEps")
  , ("Dividend Yield", info "dividendYield")
  , ("Beta", info "beta")
  , ("52-Week High", info "fiftyTwoWeekHigh")
  , ("52-Week Low", info "fiftyTwoWeekLow") ]

/-- Embedding of the displayed `fundamentals_df` (secrep.py lines
180-196): the (Metric, Value) rows with `format_large_num` applied to
every value. -/
def fundamentals_df (f : List (String × Option PyNum)) : List (String × String) :=
  f.map fun p => (p.1, format_large_num p.2)

/-! ### HTTP requests -/

/-- An outgoing `requests.get` call: URL, header list, and the `timeout`
keyword argument if one is passed. -/
structure HttpRequest where
  url : String
  headers : List (String × String)
  timeout : Option ℕ
deriving DecidableEq

/-- The GET issued by `fetch_insider_trades` (secrep.py lines 37-40):
OpenInsider screener URL, `User-Agent` header, `timeout=10`. -/
def insiderTradesRequest (ticker : String) : HttpRequest :=
  { url := "http://openinsider.com/screener?s=" ++ ticker ++
      "&o=&pl=&ph=&ll=&lh=&fd=0&td=0&fdlyl=&tdlyl=&daysago=30"
    headers := [("User-Agent", "Mozilla/5.0")]
    timeout := some 10 }

/-- The GET issued by `fetch_latest_news` (secrep.py lines 86-89):
Finviz quote URL, `User-Agent` header, and no `timeout` argument. -/
def newsRequest (ticker : String) : HttpRequest :=
  { url := "https://finviz.com/quote.ashx?t=" ++ ticker
    headers := [("User-Agent", "Mozilla/5.0")]
    timeout := none }

/-- All HTTP GETs the program issues for a ticker. -/
def programRequests (ticker : String) : List HttpRequest :=
  [insiderTradesRequest ticker, newsRequest ticker]

/-! ### Result cache -/

/-- The `ttl=3600` value passed to every one of the five
`@st.cache_data` decorators (secrep.py lines 32, 68, 81, 101, 119). -/
def ttlSeconds : ℕ := 3600

/-- Modelled from the spec: the memoisation logic of the
`st.cache_data(ttl=3600)` decorator lives in the Streamlit library, not
in this repository; per spec §3 and §4.5 a cache entry is
`(key = arguments, value = result, expiry = insertion time + 1 hour)`
and a lookup after expiry must trigger a fresh fetch.  Entries are an
association list from argument to (value, insertion time), newest
first. -/
structure TtlCache (α β : Type) where
  entries : List (α × β × ℕ)

/-- Find the newest entry for an argument. -/
def lookupEntry {α β : Type} [DecidableEq α] :
    List (α × β × ℕ) → α → Option (β × ℕ)
  | [], _ => none
  | (k, v, t) :: rest, a => if k = a then some (v, t) else lookupEntry rest a

/-- Outcome of one cached call: the returned value, the cache
afterwards, and whether the underlying operation was invoked. -/
structure CacheCall (α β : Type) where
  result : β
  state : TtlCache α β
  invoked : Bool

/-- Modelled from the spec: one call through the cache at time `now`
(seconds).  A stored value younger than the time-to-live is returned
without invoking `f`; otherwise `f` runs and its result is stored with
insertion time `now`. -/
def cachedCall {α β : Type} [DecidableEq α]
    (f : α → β) (st : TtlCache α β) (now : ℕ) (a : α) : CacheCall α β :=
  match lookupEntry st.entries a with
  | some (v, t) =>
    if now < t + ttlSeconds then ⟨v, st, false⟩
    else ⟨f a, ⟨(a, f a, now) :: st.entries⟩, true⟩
  | none => ⟨f a, ⟨(a, f a, now) :: st.entries⟩, true⟩

/-! ### TXT report assembly -/

/-- Pandas `stock_data.tail(5)`: the last five rows. -/
def tail5 {α : Type} (l : List α) : List α := l.drop (l.length - 5)

/-- The report file name (secrep.py line 266). -/
def reportFileName (ticker : String) : String :=
  ticker ++ "_investment_report.txt"

/-- The mode the report file is opened with (secrep.py line 267):
`"w"` truncates, so the file is overwritten, not appended to. -/
def reportOpenMode : String := "w"

/-- The encoding the report file is opened with (secrep.py line 267). -/
def reportEncoding : String := "utf-8"

/-- Embedding of the TXT-report body (secrep.py lines 268-292): the
concatenation of everything written to the file.  `renderStock` stands
for pandas' rendering of `stock_data.tail(5)`, `showVal` for Python
`str` on a raw fundamentals value, and `renderInsider` for
`DataFrame.to_string()`; the sections are guarded exactly as in the
source (`if not stock_data.empty`, `if fundamentals`,
`if news and "Error" not in news`, `if not insider_trades.empty`;
a `DataFrame` and a `dict` are truthy exactly when non-empty). -/
def reportContent {σ : Type} [DecidableEq σ]
    (ticker : String)
    (stockData : List σ) (renderStock : List σ → String)
    (fundamentals : List (String × Option PyNum)) (showVal : Option PyNum → String)
    (news sentiment : String)
    (insiderTrades : List InsiderRecord) (renderInsider : List InsiderRecord → String) :
    String :=
  "AI Investment Report for " ++ ticker ++ "\n\n" ++
  (if stockData = [] then ""
   else "Recent Stock Data (Last 5 rows):\n" ++ renderStock (tail5 stockData) ++ "\n\n") ++
  (if fundamentals = [] then ""
   else "Key Fundamentals:\n" ++
     String.join (fundamentals.map fun p => p.1 ++ ": " ++ showVal p.2 ++ "\n") ++ "\n") ++
  ("Latest News:\n" ++ news ++ "\n\n") ++
  (if sentimentGate news then "AI Sentiment Analysis:\n" ++ sentiment ++ "\n\n" else "") ++
  (if insiderTrades = [] then ""
   else "Insider Trading Activity:\n" ++ renderInsider insiderTrades ++ "\n\n")

/-- The five section headers of the report, in the order the source
writes them. -/
def reportHeaders : List String :=
  [ "Recent Stock Data (Last 5 rows):"
  , "Key Fundamentals:"
  , "Latest News:"
  , "AI Sentiment Analysis:"
  , "Insider Trading Activity:" ]

/-- Occurrence in order: `ChainSub ps s` holds when the patterns `ps`
occur in `s` contiguously and in order, each after the end of the
previous one. -/
inductive ChainSub : List (List Char) → List Char → Prop where
  | nil (s : List Char) : ChainSub [] s
  | cons (pre p rest : List Char) (ps : List (List Char)) :
      ChainSub ps rest → ChainSub (p :: ps) (pre ++ p ++ rest)

/-! ## Theorems -/

theorem ChainSub.prepend {ps : List (List Char)} {s : List Char}
    (pre : List Char) (h : ChainSub ps s) : ChainSub ps (pre ++ s) := by
  cases h with
  | nil s => exact ChainSub.nil _
  | cons pre2 p rest ps h2 =>
    have : pre ++ (pre2 ++ p ++ rest) = (pre ++ pre2) ++ p ++ rest := by
      simp [List.append_assoc]
    rw [this]
    exact ChainSub.cons _ _ _ _ h2

theorem ChainSub.head {ps : List (List Char)} {rest : List Char}
    (p : List Char) (h : ChainSub ps rest) : ChainSub (p :: ps) (p ++ rest) := by
  have := ChainSub.cons [] p rest ps h
  simpa using this

theorem Frac.toRat_fabs (f : Frac) (hd : 0 < f.den) : f.fabs.toRat = |f.toRat| := by
  unfold Frac.toRat Frac.fabs
  rw [abs_div, abs_of_pos (show (0:ℚ) < (f.den:ℚ) by exact_mod_cast hd)]
  push_cast [Int.cast_natAbs]
  rfl

theorem Frac.intLe_fabs_iff (b : ℤ) (f : Frac) (hd : 0 < f.den) :
    Frac.intLe b f.fabs = true ↔ (b : ℚ) ≤ |f.toRat| := by
  rw [← Frac.toRat_fabs f hd]
  unfold Frac.intLe Frac.fabs Frac.toRat
  rw [decide_eq_true_iff]
  rw [le_div_iff₀ (show (0:ℚ) < (f.den:ℚ) by exact_mod_cast hd)]
  constructor <;> intro h <;> exact_mod_cast h

/-- C1: `format_large_num` sends a missing value to `"N/A"`; a value of
absolute value at least `1e9` to its quotient by `1e9` rendered to two
decimal places with suffix `"B"`; below that, at least `1e6` to suffix
`"M"`; below that, at least `1e3` to suffix `"K"`; and a value below
`1e3` in absolute value to `str(round(num, 2))` with no suffix.
Concretely, 2500000000 renders as "2.50B", 3400000 as "3.40M", 1200 as
"1.20K" and the integer 42 as "42". -/
theorem c1_format_large_num :
    format_large_num none = "N/A"
    ∧ (∀ n : PyNum, n.wf → (1000000000 : ℚ) ≤ |n.toRat| →
        format_large_num (some n) = fmt2 (n.frac.divInt 1000000000) ++ "B")
    ∧ (∀ n : PyNum, n.wf → |n.toRat| < 1000000000 → (1000000 : ℚ) ≤ |n.toRat| →
        format_large_num (some n) = fmt2 (n.frac.divInt 1000000) ++ "M")
    ∧ (∀ n : PyNum, n.wf → |n.toRat| < 1000000 → (1000 : ℚ) ≤ |n.toRat| →
        format_large_num (some n) = fmt2 (n.frac.divInt 1000) ++ "K")
    ∧ (∀ n : PyNum, n.wf → |n.toRat| < 1000 →
        format_large_num (some n) = pyStrRound2 n)
    ∧ format_large_num (some (.pint 2500000000)) = "2.50B"
    ∧ format_large_num (some (.pint 3400000)) = "3.40M"
    ∧ format_large_num (some (.pint 1200)) = "1.20K"
    ∧ format_large_num (some (.pint 42)) = "42" := by
  refine ⟨rfl, ?_, ?_, ?_, ?_, by decide, by decide, by decide, by decide⟩
  · intro n hwf h
    show (if Frac.intLe 1000000000 n.frac.fabs then _ else _) = _
    rw [if_pos ((Frac.intLe_fabs_iff 1000000000 n.frac hwf).mpr (by exact_mod_cast h))]
  · intro n hwf h1 h2
    show (if Frac.intLe 1000000000 n.frac.fabs then _ else _) = _
    rw [if_neg (fun hc => absurd ((Frac.intLe_fabs_iff 1000000000 n.frac hwf).mp hc)
        (not_le.mpr (by exact_mod_cast h1)))]
    rw [if_pos ((Frac.intLe_fabs_iff 1000000 n.frac hwf).mpr (by exact_mod_cast h2))]
  · intro n hwf h1 h2
    show (if Frac.intLe 1000000000 n.frac.fabs then _ else _) = _
    rw [if_neg (fun hc => absurd ((Frac.intLe_fabs_iff 1000000000 n.frac hwf).mp hc)
        (not_le.mpr (by exact_mod_cast (h1.trans (by norm_num)))))]
    rw [if_neg (fun hc => absurd ((Frac.intLe_fabs_iff 1000000 n.frac hwf).mp hc)
        (not_le.mpr (by exact_mod_cast h1)))]
    rw [if_pos ((Frac.intLe_fabs_iff 1000 n.frac hwf).mpr (by exact_mod_cast h2))]
  · intro n hwf h1
    show (if Frac.intLe 1000000000 n.frac.fabs then _ else _) = _
    rw [if_neg (fun hc => absurd ((Frac.intLe_fabs_iff 1000000000 n.frac hwf).mp hc)
        (not_le.mpr (by exact_mod_cast (h1.trans (by norm_num)))))]
    rw [if_neg (fun hc => absurd ((Frac.intLe_fabs_iff 1000000 n.frac hwf).mp hc)
        (not_le.mpr (by exact_mod_cast (h1.trans (by norm_num)))))]
    rw [if_neg (fun hc => absurd ((Frac.intLe_fabs_iff 1000 n.frac hwf).mp hc)
        (not_le.mpr (by exact_mod_cast h1)))]

/-- C1 witness: the "B" branch applied at the concrete market cap
2500000000. -/
theorem c1_format_large_num_witness :
    PyNum.wf (.pint 2500000000)
    ∧ (1000000000 : ℚ) ≤ |PyNum.toRat (.pint 2500000000)|
    ∧ format_large_num (some (.pint 2500000000))
        = fmt2 ((PyNum.frac (.pint 2500000000)).divInt 1000000000) ++ "B" :=
  ⟨by norm_num [PyNum.wf, PyNum.frac],
   by norm_num [PyNum.toRat, Frac.toRat, PyNum.frac],
   c1_format_large_num.2.1 (.pint 2500000000) (by norm_num [PyNum.wf, PyNum.frac])
     (by norm_num [PyNum.toRat, Frac.toRat, PyNum.frac])⟩

theorem startsWithL_append (p rest : List Char) : startsWithL p (p ++ rest) = true := by
  induction p with
  | nil => rfl
  | cons a pa ih => simp [startsWithL, ih]

theorem hasSubstr_of_startsWithL {pat s : List Char}
    (h : startsWithL pat s = true) : hasSubstr pat s = true := by
  cases s with
  | nil =>
    cases pat with
    | nil => rfl
    | cons a pa => simp [startsWithL] at h
  | cons c rest => simp [hasSubstr, h]

/-- C3: a news digest of the fetcher's failure shape
`"Error fetching news: <msg>"` never passes the sentiment gate, so
`generate_analysis_via_gpt` is not called on it; and the gate passes a
digest exactly when it is non-empty and does not contain the substring
`"Error"`. -/
theorem c3_error_news_suppressed :
    (∀ msg : String, ∀ k : ℕ,
        sentimentGate (fetch_latest_news (.fail msg) k) = false)
    ∧ (∀ news : String, sentimentGate news = true ↔
        news ≠ "" ∧ hasSubstr "Error".data news.data = false) := by
  constructor
  · intro msg k
    show sentimentGate ("Error fetching news: " ++ msg) = false
    have hdata : ("Error fetching news: " ++ msg).data
        = "Error".data ++ (" fetching news: ".data ++ msg.data) := by
      rw [String.data_append]
      have : ("Error fetching news: " : String).data
          = "Error".data ++ " fetching news: ".data := by decide
      rw [this, List.append_assoc]
    have hsub : hasSubstr "Error".data ("Error fetching news: " ++ msg).data = true := by
      rw [hdata]
      exact hasSubstr_of_startsWithL (startsWithL_append _ _)
    simp only [sentimentGate, hsub, Bool.not_true, Bool.and_false]
  · intro news
    simp only [sentimentGate, Bool.and_eq_true, Bool.not_eq_true']
    constructor
    · rintro ⟨he, hs⟩
      refine ⟨?_, hs⟩
      intro hnil
      subst hnil
      simp [String.isEmpty] at he
    · rintro ⟨he, hs⟩
      refine ⟨?_, hs⟩
      cases hb : news.isEmpty
      · rfl
      · exact absurd ((String.isEmpty_iff news).mp hb) he

/-- C3 witness: the gate rejects the failure digest for a concrete
message, and accepts a concrete clean digest. -/
theorem c3_error_news_suppressed_witness :
    sentimentGate (fetch_latest_news (.fail "timeout") 5) = false
    ∧ (sentimentGate "TSLA up 4%" = true ↔
        "TSLA up 4%" ≠ "" ∧ hasSubstr "Error".data "TSLA up 4%".data = false) :=
  ⟨c3_error_news_suppressed.1 "timeout" 5, c3_error_news_suppressed.2 "TSLA up 4%"⟩

/-- C10: when the news page has no matching table, `fetch_latest_news`
returns the placeholder `"No recent news found."`, which is non-empty
and free of `"Error"`, so the sentiment-analysis call is still made. -/
theorem c10_no_table_placeholder_analyzed :
    fetch_latest_news .noTable 5 = "No recent news found."
    ∧ sentimentGate (fetch_latest_news .noTable 5) = true :=
  ⟨rfl, by decide⟩

/-- C6: a fetched page with no `table.tinytable` yields an empty
insider-trades result, as does a raised fetch exception; neither is a
failure. -/
theorem c6_no_insider_table_empty :
    fetch_insider_trades (.page none) = []
    ∧ fetch_insider_trades .fail = [] :=
  ⟨rfl, rfl⟩

theorem parseInsiderRow_eq_none_iff (r : List String) :
    parseInsiderRow r = none ↔ r.length < 13 := by
  unfold parseInsiderRow
  split <;> simp_all

theorem insider_filterMap_length (rows : List (List String)) :
    (rows.filterMap parseInsiderRow).length
      = (rows.filter fun r => 13 ≤ r.length).length := by
  induction rows with
  | nil => rfl
  | cons r rest ih =>
    simp only [List.filterMap_cons, List.filter_cons]
    rcases Nat.lt_or_ge r.length 13 with h | h
    · rw [(parseInsiderRow_eq_none_iff r).mpr h]
      have : ¬ (13 ≤ r.length) := Nat.not_le.mpr h
      simp [this, ih]
    · have hne : parseInsiderRow r ≠ none := by
        rw [Ne, parseInsiderRow_eq_none_iff]
        omega
      rcases Option.ne_none_iff_exists'.mp hne with ⟨v, hv⟩
      rw [hv]
      simp [h, ih]

/-- C7: rows with fewer than 13 cells are excluded from the
insider-trades result, and every row with at least 13 cells contributes
exactly one record: the result has exactly one record per
sufficiently long row. -/
theorem c7_short_rows_excluded (rows : List (List String)) :
    (fetch_insider_trades (.page (some rows))).length
      = (rows.filter fun r => 13 ≤ r.length).length
    ∧ ∀ r ∈ rows, r.length < 13 → parseInsiderRow r = none := by
  refine ⟨insider_filterMap_length rows, ?_⟩
  intro r _ hlt
  exact (parseInsiderRow_eq_none_iff r).mpr hlt

/-- C7 witness: one 13-cell row and one short row produce exactly one
record. -/
theorem c7_short_rows_excluded_witness :
    (fetch_insider_trades (.page (some [List.replicate 13 "x", ["short"]]))).length
      = ([List.replicate 13 "x", ["short"]].filter fun r => 13 ≤ r.length).length :=
  (c7_short_rows_excluded [List.replicate 13 "x", ["short"]]).1

/-- C9: any exception in the completion call collapses to a plain text
string embedding the exception message, returned instead of raising;
and (whenever that string is whitespace-clean, as the fixed prefix makes
it for any trimmed message) a legitimate model response producing the
same text is indistinguishable from it — no tag separates failure from
success. -/
theorem c9_gpt_error_collapse (e : String) :
    generate_analysis_via_gpt (.error e) = "Error generating GPT analysis: " ++ e
    ∧ (pyStrip ("Error generating GPT analysis: " ++ e)
          = "Error generating GPT analysis: " ++ e →
        ∃ ok : String,
          generate_analysis_via_gpt (.ok ok) = generate_analysis_via_gpt (.error e)) := by
  refine ⟨rfl, fun h => ⟨"Error generating GPT analysis: " ++ e, ?_⟩⟩
  show pyStrip ("Error generating GPT analysis: " ++ e) = _
  rw [h]
  rfl

/-- C9 witness: the collapse at the concrete exception message
"rate limit exceeded". -/
theorem c9_gpt_error_collapse_witness :
    pyStrip ("Error generating GPT analysis: " ++ "rate limit exceeded")
        = "Error generating GPT analysis: " ++ "rate limit exceeded"
    ∧ generate_analysis_via_gpt (.error "rate limit exceeded")
        = "Error generating GPT analysis: " ++ "rate limit exceeded"
    ∧ ∃ ok : String,
        generate_analysis_via_gpt (.ok ok)
          = generate_analysis_via_gpt (.error "rate limit exceeded") :=
  ⟨by decide, (c9_gpt_error_collapse "rate limit exceeded").1,
   (c9_gpt_error_collapse "rate limit exceeded").2 (by decide)⟩

/-- C5 counterexample: not every GET the program issues carries a socket
timeout — the news fetch for ticker "AAPL" passes no `timeout`
argument (secrep.py line 89), so the claim fails as stated. -/
theorem c5_counterexample :
    ¬ ∀ r ∈ programRequests "AAPL",
        r.headers = [("User-Agent", "Mozilla/5.0")] ∧ r.timeout.isSome = true := by
  intro h
  have := (h (newsRequest "AAPL") (by decide)).2
  simp [newsRequest] at this

/-- C5 amended: both GETs send the fixed `User-Agent: Mozilla/5.0`
header; the insider-trades GET has a fixed 10-second socket timeout,
but the news GET passes no timeout at all. -/
theorem c5_request_configuration (ticker : String) :
    (insiderTradesRequest ticker).headers = [("User-Agent", "Mozilla/5.0")]
    ∧ (insiderTradesRequest ticker).timeout = some 10
    ∧ (newsRequest ticker).headers = [("User-Agent", "Mozilla/5.0")]
    ∧ (newsRequest ticker).timeout = none :=
  ⟨rfl, rfl, rfl, rfl⟩

/-- C5 witness: the amended configuration at the concrete ticker
"AAPL". -/
theorem c5_request_configuration_witness :
    (insiderTradesRequest "AAPL").timeout = some 10
    ∧ (newsRequest "AAPL").timeout = none :=
  ⟨(c5_request_configuration "AAPL").2.1, (c5_request_configuration "AAPL").2.2.2⟩

theorem format_large_num_cases (o : Option PyNum) :
    format_large_num o = "N/A" ∨ ∃ n : PyNum, format_large_num o = format_large_num (some n) := by
  cases o with
  | none => exact Or.inl rfl
  | some n => exact Or.inr ⟨n, rfl⟩

/-- C8: on the non-raising path the fundamentals mapping has exactly the
8 named metrics in fixed order, the displayed table has exactly 8 rows,
every displayed value is either "N/A" or a `format_large_num`-formatted
number, and a missing provider field shows as "N/A". -/
theorem c8_fundamentals_shape (info : String → Option PyNum) :
    (fetch_fundamentals info).map Prod.fst =
      ["Market Cap", "PE Ratio (TTM)", "Forward PE", "EPS (TTM)",
       "Dividend Yield", "Beta", "52-Week High", "52-Week Low"]
    ∧ (fetch_fundamentals info).length = 8
    ∧ (fundamentals_df (fetch_fundamentals info)).length = 8
    ∧ (∀ p ∈ fundamentals_df (fetch_fundamentals info),
        p.2 = "N/A" ∨ ∃ n : PyNum, p.2 = format_large_num (some n))
    ∧ (∀ p ∈ fetch_fundamentals info, p.2 = none →
        (p.1, "N/A") ∈ fundamentals_df (fetch_fundamentals info)) := by
  refine ⟨rfl, rfl, rfl, ?_, ?_⟩
  · intro p hp
    simp only [fundamentals_df, fetch_fundamentals, List.map_cons, List.map_nil,
      List.mem_cons, List.not_mem_nil, or_false] at hp
    rcases hp with h | h | h | h | h | h | h | h <;>
      (subst h; exact format_large_num_cases _)
  · intro p hp hnone
    simp only [fetch_fundamentals, List.mem_cons, List.not_mem_nil, or_false] at hp
    rcases hp with h | h | h | h | h | h | h | h <;>
      (subst h; simp only [fundamentals_df, fetch_fundamentals, List.map_cons,
        List.map_nil, List.mem_cons] at hnone ⊢; rw [hnone]; simp [format_large_num])

/-- C8 witness: a provider info with every field missing still yields
the 8 named rows, all displayed as "N/A". -/
theorem c8_fundamentals_shape_witness :
    (fundamentals_df (fetch_fundamentals fun _ => none)).length = 8
    ∧ (("Market Cap", (none : Option PyNum)).2 = none →
        (("Market Cap", (none : Option PyNum)).1, "N/A")
          ∈ fundamentals_df (fetch_fundamentals fun _ => none)) :=
  ⟨(c8_fundamentals_shape fun _ => none).2.2.1,
   (c8_fundamentals_shape fun _ => none).2.2.2.2 ("Market Cap", none) (by decide)⟩

theorem cachedCall_eq_of_lookup {α β : Type} [DecidableEq α] {f : α → β}
    {st : TtlCache α β} {now : ℕ} {a : α} {v : β} {t : ℕ}
    (hl : lookupEntry st.entries a = some (v, t)) :
    cachedCall f st now a =
      if now < t + ttlSeconds then ⟨v, st, false⟩
      else ⟨f a, ⟨(a, f a, now) :: st.entries⟩, true⟩ := by
  unfold cachedCall
  rw [hl]

/-- C2: the TTL-cache contract of the five `st.cache_data(ttl=3600)`
operations (modelled from the spec, the decorator's logic being library
code): a first call on a fresh cache invokes the operation; a second
call with the same argument within the time-to-live returns the same
result without invoking it again; a call at or past the time-to-live
re-invokes it; and whenever a call is served from the cache, the entry
served is younger than the time-to-live — no stale value is served. -/
theorem c2_cache_ttl {α β : Type} [DecidableEq α] (f : α → β) (a : α) (t1 t2 : ℕ) :
    (cachedCall f ⟨[]⟩ t1 a).invoked = true
    ∧ (cachedCall f ⟨[]⟩ t1 a).result = f a
    ∧ (t2 < t1 + ttlSeconds →
        (cachedCall f (cachedCall f ⟨[]⟩ t1 a).state t2 a).result
            = (cachedCall f ⟨[]⟩ t1 a).result
        ∧ (cachedCall f (cachedCall f ⟨[]⟩ t1 a).state t2 a).invoked = false)
    ∧ (t1 + ttlSeconds ≤ t2 →
        (cachedCall f (cachedCall f ⟨[]⟩ t1 a).state t2 a).invoked = true)
    ∧ (∀ (st : TtlCache α β) (now : ℕ), (cachedCall f st now a).invoked = false →
        ∃ t, lookupEntry st.entries a = some ((cachedCall f st now a).result, t)
          ∧ now < t + ttlSeconds) := by
  refine ⟨rfl, rfl, ?_, ?_, ?_⟩
  · intro h
    simp [cachedCall, lookupEntry, h]
  · intro h
    simp [cachedCall, lookupEntry, Nat.not_lt.mpr h]
  · intro st now h
    cases hl : lookupEntry st.entries a with
    | none =>
      unfold cachedCall at h
      rw [hl] at h
      simp at h
    | some vt =>
      obtain ⟨v, t⟩ := vt
      rw [cachedCall_eq_of_lookup hl] at h ⊢
      by_cases hfresh : now < t + ttlSeconds
      · rw [if_pos hfresh] at h ⊢
        exact ⟨t, rfl, hfresh⟩
      · rw [if_neg hfresh] at h
        simp at h

theorem strDataAppend (a b : String) : (a ++ b).data = a.data ++ b.data := rfl

theorem ChainSub.consSkip {ps : List (List Char)} {s : List Char}
    (c : Char) (h : ChainSub ps s) : ChainSub ps (c :: s) :=
  ChainSub.prepend [c] h

/-- C4: for a price series of at least 5 rows, non-empty fundamentals, a
news digest passing the sentiment gate, and non-empty insider trades,
the generated report body contains the five section headers in the
fixed order; the serialized price series is exactly the last 5 rows; and
the file written is `{TICKER}_investment_report.txt`, opened in mode
`"w"` (overwrite, not append) with UTF-8 encoding. -/
theorem c4_report_sections {σ : Type} [DecidableEq σ]
    (ticker news sentiment : String)
    (stockData : List σ) (renderStock : List σ → String)
    (fundamentals : List (String × Option PyNum)) (showVal : Option PyNum → String)
    (insiderTrades : List InsiderRecord) (renderInsider : List InsiderRecord → String)
    (h5 : 5 ≤ stockData.length)
    (hf : fundamentals ≠ [])
    (hn : sentimentGate news = true)
    (hi : insiderTrades ≠ []) :
    ChainSub (reportHeaders.map String.data)
      (reportContent ticker stockData renderStock fundamentals showVal
        news sentiment insiderTrades renderInsider).data
    ∧ (tail5 stockData).length = 5
    ∧ reportFileName ticker = ticker ++ "_investment_report.txt"
    ∧ reportOpenMode = "w"
    ∧ reportEncoding = "utf-8" := by
  refine ⟨?_, ?_, rfl, rfl, rfl⟩
  · have hs : stockData ≠ [] := by
      intro h
      rw [h] at h5
      simp at h5
    unfold reportContent
    rw [if_neg hs, if_neg hf, if_pos hn, if_neg hi]
    simp only [reportHeaders, List.map_cons, List.map_nil]
    simp only [strDataAppend, List.append_assoc]
    apply ChainSub.prepend
    apply ChainSub.prepend
    apply ChainSub.prepend
    refine ChainSub.head _ ?_
    apply ChainSub.consSkip
    apply ChainSub.prepend
    apply ChainSub.prepend
    apply ChainSub.prepend
    refine ChainSub.head _ ?_
    apply ChainSub.consSkip
    apply ChainSub.prepend
    apply ChainSub.prepend
    apply ChainSub.prepend
    refine ChainSub.head _ ?_
    apply ChainSub.consSkip
    apply ChainSub.prepend
    apply ChainSub.prepend
    apply ChainSub.prepend
    refine ChainSub.head _ ?_
    apply ChainSub.consSkip
    apply ChainSub.prepend
    apply ChainSub.prepend
    apply ChainSub.prepend
    refine ChainSub.head _ ?_
    exact ChainSub.nil _
  · simp only [tail5, List.length_drop]
    omega

/-- C4 witness: concrete fixture data for ticker "TSLA" with a 5-row
price series, one fundamentals row, clean news, sentiment text and one
insider trade. -/
theorem c4_report_sections_witness :
    5 ≤ ([10, 11, 12, 13, 14] : List ℕ).length
    ∧ ([("Market Cap", (none : Option PyNum))] ≠ [])
    ∧ sentimentGate "TSLA deliveries beat estimates" = true
    ∧ ([({ filingDate := "2024-01-02", tradeDate := "2024-01-01",
           insiderName := "A Person", tradeType := "P - Purchase",
           sharesTraded := "100", price := "$200.00",
           value := "$20,000" } : InsiderRecord)] ≠ [])
    ∧ ChainSub (reportHeaders.map String.data)
        (reportContent "TSLA" [10, 11, 12, 13, 14] (fun _ => "rows")
          [("Market Cap", none)] (fun _ => "None")
          "TSLA deliveries beat estimates" "Bullish."
          [{ filingDate := "2024-01-02", tradeDate := "2024-01-01",
             insiderName := "A Person", tradeType := "P - Purchase",
             sharesTraded := "100", price := "$200.00",
             value := "$20,000" }] (fun _ => "trades")).data :=
  ⟨by decide, by decide, by decide, by decide,
   (c4_report_sections "TSLA" "TSLA deliveries beat estimates" "Bullish."
      [10, 11, 12, 13, 14] (fun _ => "rows")
      [("Market Cap", none)] (fun _ => "None")
      [{ filingDate := "2024-01-02", tradeDate := "2024-01-01",
         insiderName := "A Person", tradeType := "P - Purchase",
         sharesTraded := "100", price := "$200.00",
         value := "$20,000" }] (fun _ => "trades")
      (by decide) (by decide) (by decide) (by decide)).1⟩

/-- C2 witness: with operation `Nat.succ` and argument 5, the second
call 100 seconds after the first is served from the cache without a
second invocation and returns the same result. -/
theorem c2_cache_ttl_witness :
    (cachedCall Nat.succ ⟨[]⟩ 0 5).invoked = true
    ∧ (100 < 0 + ttlSeconds)
    ∧ (cachedCall Nat.succ (cachedCall Nat.succ ⟨[]⟩ 0 5).state 100 5).result
        = (cachedCall Nat.succ ⟨[]⟩ 0 5).result
    ∧ (cachedCall Nat.succ (cachedCall Nat.succ ⟨[]⟩ 0 5).state 100 5).invoked = false :=
  ⟨(c2_cache_ttl Nat.succ 5 0 100).1, by decide,
   ((c2_cache_ttl Nat.succ 5 0 100).2.2.1 (by decide)).1,
   ((c2_cache_ttl Nat.succ 5 0 100).2.2.1 (by decide)).2⟩

end TradeLens
